import Mathlib

/-!
Verification of the data-retrieval, caching and normalization core of
src/bgs_sensor_explorer.py (BGS Sensor Data Explorer).

The Python script is a Streamlit dashboard; the verified core consists of
the HTTP fetch wrappers (get_sensors, get_sensor_details, get_observations),
the time-window filter construction, the query-parameter construction, the
pandas-based observation normalization with its summary statistics, the
datastream metadata formatting, and the cache-policy declarations.
Machine floats never matter for the verified properties, so observation
results are modelled as integers; timestamps are seconds since the Unix
epoch as naturals.
-/

namespace BGS

/-- Failure classes raised by the requests library and caught by the
fetch wrappers: network-level failures (DNS, connection refused, timeout)
and the HTTPError raised by response.raise_for_status() on a non-success
status code.  All are subclasses of requests.exceptions.RequestException,
which is the class the three wrappers catch. -/
inductive RequestError where
  | timeout
  | connectionRefused
  | dnsFailure
  | httpStatus (code : Nat)
deriving DecidableEq

/-- One raw observation record from the API envelope's value list
(lines 312, 316 of the source).  Either JSON field may be absent. -/
structure RawObs where
  phenomenonTime : Option String
  result : Option Int
deriving DecidableEq

/-- The observations JSON envelope: an object holding a value list. -/
structure Envelope where
  value : List RawObs
deriving DecidableEq

/-- A minimal sensor (Thing) record from the sensors list envelope. -/
structure SensorJson where
  iotId : Option Int
  name : Option String
  description : Option String
deriving DecidableEq

/-- The sensors-list JSON envelope returned by the Things endpoint. -/
structure SensorsEnvelope where
  value : List SensorJson
deriving DecidableEq

/-- The unitOfMeasurement sub-object of a Datastream. -/
structure UnitOfMeasurement where
  symbol : Option String
deriving DecidableEq

/-- The observedProperty sub-object of a Datastream. -/
structure ObservedProperty where
  name : Option String
deriving DecidableEq

/-- A Datastream record as read by format_datastream_info (lines 74-82);
every field that the code accesses with a defaulted get is optional. -/
structure DatastreamJson where
  iotId : Option Int
  name : Option String
  description : Option String
  unitOfMeasurement : Option UnitOfMeasurement
  observedProperty : Option ObservedProperty
deriving DecidableEq

/-- A sensor-detail record (Things(id) expanded with Datastreams). -/
structure SensorDetail where
  iotId : Option Int
  name : Option String
  datastreams : List DatastreamJson
deriving DecidableEq

/-- Lines 33-39: the try/except around requests.get in get_sensors.  A
successful response's parsed JSON is returned as is; every
RequestException is caught and replaced by the empty envelope whose
value list is empty.  No exception escapes and no retry happens. -/
def get_sensors_result (resp : Except RequestError SensorsEnvelope) : SensorsEnvelope :=
  match resp with
  | .ok env => env
  | .error _ => ⟨[]⟩

/-- Lines 47-53: the try/except in get_sensor_details.  On failure the
code returns the empty JSON object, modelled as none. -/
def get_sensor_details_result (resp : Except RequestError SensorDetail) : Option SensorDetail :=
  match resp with
  | .ok d => some d
  | .error _ => none

/-- Lines 66-72: the try/except in get_observations; failures are
replaced by the empty envelope. -/
def get_observations_result (resp : Except RequestError Envelope) : Envelope :=
  match resp with
  | .ok env => env
  | .error _ => ⟨[]⟩

/-- get_sensors issues exactly one requests.get (no retry loop): the
responder gives the outcome of each prospective HTTP attempt, the
wrapper consumes only attempt 0, and the second component counts the
attempts made. -/
def get_sensors_fetch (responder : Nat → Except RequestError SensorsEnvelope) :
    SensorsEnvelope × Nat :=
  (get_sensors_result (responder 0), 1)

/-- get_sensor_details issues exactly one requests.get. -/
def get_sensor_details_fetch (responder : Nat → Except RequestError SensorDetail) :
    Option SensorDetail × Nat :=
  (get_sensor_details_result (responder 0), 1)

/-- get_observations issues exactly one requests.get. -/
def get_observations_fetch (responder : Nat → Except RequestError Envelope) :
    Envelope × Nat :=
  (get_observations_result (responder 0), 1)

/-- Line 74-82: format_datastream_info.  Dictionary get with a default
becomes Option.getD; the nested gets default to the empty object and
then the empty string. -/
structure DatastreamInfo where
  id : Option Int
  name : String
  description : String
  unit : String
  property : String
deriving DecidableEq

/-- format_datastream_info from lines 74-82 of the source. -/
def format_datastream_info (ds : DatastreamJson) : DatastreamInfo :=
  { id := ds.iotId
    name := ds.name.getD ""
    description := ds.description.getD ""
    unit := ((ds.unitOfMeasurement.getD ⟨none⟩).symbol).getD ""
    property := ((ds.observedProperty.getD ⟨none⟩).name).getD "" }

/-- A row of the observation DataFrame after the time column has been
added (line 317): the parsed timestamp (none models NaT, arising from a
missing phenomenonTime) and the result value (none models NaN from a
missing result field). -/
structure ObsRow where
  time : Option Nat
  result : Option Int
deriving DecidableEq

/-- pd.to_datetime applied to one cell: a missing value maps to NaT, a
present string is parsed, and a string the parser rejects raises
(errors propagate as Except.error carrying the offending string).
The timestamp parser itself is library code and is a parameter. -/
def toDatetime (parse : String → Option Nat) (r : RawObs) : Except String ObsRow :=
  match r.phenomenonTime with
  | none => .ok ⟨none, r.result⟩
  | some s =>
    match parse s with
    | some t => .ok ⟨some t, r.result⟩
    | none => .error s

/-- The vectorized pd.to_datetime over the phenomenonTime column
(line 317): the first malformed present timestamp aborts the whole
conversion. -/
def addTimeColumn (parse : String → Option Nat) : List RawObs → Except String (List ObsRow)
  | [] => .ok []
  | r :: rest =>
    match toDatetime parse r with
    | .error e => .error e
    | .ok row =>
      match addTimeColumn parse rest with
      | .error e => .error e
      | .ok rows => .ok (row :: rows)

/-- Comparison key used by sort_values on the time column: ascending on
parsed timestamps, with NaT (missing time) placed last, as pandas does
with its default na_position. -/
def rowLEb (a b : ObsRow) : Bool :=
  match a.time, b.time with
  | some x, some y => x ≤ y
  | some _, none => true
  | none, some _ => false
  | none, none => true

/-- The ordering relation induced by rowLEb. -/
def rowLE (a b : ObsRow) : Prop := rowLEb a b = true

instance : DecidableRel rowLE := fun a b => inferInstanceAs (Decidable (rowLEb a b = true))

instance : IsTotal ObsRow rowLE where
  total a b := by
    obtain ⟨ta, ra⟩ := a
    obtain ⟨tb, rb⟩ := b
    cases ta <;> cases tb <;> simp [rowLE, rowLEb] <;> omega

instance : IsTrans ObsRow rowLE where
  trans a b c := by
    obtain ⟨ta, ra⟩ := a
    obtain ⟨tb, rb⟩ := b
    obtain ⟨tc, rc⟩ := c
    cases ta <;> cases tb <;> cases tc <;> simp [rowLE, rowLEb] <;> omega

/-- df.sort_values on the time column (line 318), modelled by a stable
sort with respect to the rowLE key order. -/
def sortByTime (rows : List ObsRow) : List ObsRow := rows.insertionSort rowLE

/-- Lines 316-318: build the DataFrame from the envelope's value list,
add the parsed time column and sort ascending by it.  Accessing the
phenomenonTime column raises a KeyError when no record of a (possibly
empty) value list carries that field, since then the constructed
DataFrame has no such column. -/
def normalizeObservations (parse : String → Option Nat) (env : Envelope) :
    Except String (List ObsRow) :=
  if env.value.any (fun r => r.phenomenonTime.isSome) then
    match addTimeColumn parse env.value with
    | .error e => .error e
    | .ok rows => .ok (sortByTime rows)
  else .error "KeyError: phenomenonTime"

/-- The four summary metrics of lines 326-334: Total Points is the row
count, Latest Value is iloc 0 of the result column of the sorted frame,
Min and Max are the column minimum and maximum (pandas skips NaN). -/
structure SummaryStats where
  count : Nat
  latest : Option Int
  minValue : Option Int
  maxValue : Option Int
deriving DecidableEq

/-- The statistics block of lines 326-334, applied to the sorted
DataFrame. -/
def summaryStats (df : List ObsRow) : SummaryStats :=
  { count := df.length
    latest := df.head?.bind ObsRow.result
    minValue := (df.filterMap ObsRow.result).min?
    maxValue := (df.filterMap ObsRow.result).max? }

/-- Outcome of the single-datastream view: either the statistics block
(and chart) or the no-observations warning of line 350. -/
inductive SingleView where
  | stats (s : SummaryStats)
  | noDataWarning
deriving DecidableEq

/-- Lines 312-350: the value list is read with a default of [], a
non-empty list is normalized and summarized, an empty one produces the
warning instead of any statistic. -/
def singleDatastreamView (parse : String → Option Nat) (obs_data : Envelope) :
    Except String SingleView :=
  match obs_data.value with
  | [] => .ok .noDataWarning
  | _ =>
    match normalizeObservations parse obs_data with
    | .error e => .error e
    | .ok df => .ok (.stats (summaryStats df))

/-- The cache TTL declared for the sensors list (line 23 of the source,
a 5-minute cache), in seconds. -/
def SENSORS_CACHE_TTL : Nat := 300

/-- The cache TTL declared for sensor details (line 41), in seconds. -/
def SENSOR_DETAILS_CACHE_TTL : Nat := 300

/-- The cache TTL declared for observations (line 55, a 1-minute
cache), in seconds. -/
def OBSERVATIONS_CACHE_TTL : Nat := 60

/-- One cache entry: the memoized value and its insertion time. -/
structure CacheEntry (α : Type) where
  value : α
  insertedAt : Nat
deriving DecidableEq

/-- The cache: a mapping from keys to entries, newest binding first. -/
abbrev Cache (α : Type) := List (String × CacheEntry α)

/-- Result of one memoized call: the value handed back, the cache
afterwards, and whether the underlying fetch function ran. -/
structure FetchResult (α : Type) where
  value : α
  cache : Cache α
  invokedFetch : Bool

/-- Modelled from the spec: the memoization discipline of the
st.cache_data decorators applied at lines 23, 41 and 55 of the source
lives in the Streamlit library, not in this repository; only the TTL
arguments (300, 300 and 60 seconds) appear in the source.  Per the
spec's Result Cache contract, a lookup that finds a live entry (one
with now minus insertedAt strictly below the ttl) returns its value
without invoking the fetch function; otherwise the fetch function runs
and its result is stored with the current timestamp. -/
def getOrFetch {α : Type} (now : Nat) (key : String) (ttl : Nat)
    (fetchFn : Unit → α) (c : Cache α) : FetchResult α :=
  match c.lookup key with
  | some e =>
    if now - e.insertedAt < ttl then ⟨e.value, c, false⟩
    else
      let v := fetchFn ()
      ⟨v, (key, ⟨v, now⟩) :: c, true⟩
  | none =>
    let v := fetchFn ()
    ⟨v, (key, ⟨v, now⟩) :: c, true⟩

/-- Line 456: st.cache_data.clear() on the refresh button removes
every cached entry unconditionally. -/
def invalidateAll {α : Type} (_c : Cache α) : Cache α := []

/-- The five options of the time-range selectbox (lines 258-262). -/
inductive TimeRange where
  | allAvailable
  | last24h
  | last7d
  | last30d
  | last90d
deriving DecidableEq

/-- The display string of each selectbox option. -/
def TimeRange.label : TimeRange → String
  | .allAvailable => "All available"
  | .last24h => "Last 24 hours"
  | .last7d => "Last 7 days"
  | .last30d => "Last 30 days"
  | .last90d => "Last 90 days"

/-- The hours_map dictionary of lines 267-272. -/
def hours_map : List (String × Nat) :=
  [("Last 24 hours", 24),
   ("Last 7 days", 24 * 7),
   ("Last 30 days", 24 * 30),
   ("Last 90 days", 24 * 90)]

/-- Hours looked up for a selected range; none for the All available
option, which lines 265-266 leave without a filter. -/
def TimeRange.hours (tr : TimeRange) : Option Nat := hours_map.lookup tr.label

/-- Conversion from days since 1970-01-01 to the Gregorian civil date
(year, month, day), the date arithmetic underlying strftime. -/
def civilFromDays (z : Nat) : Nat × Nat × Nat :=
  let zz := z + 719468
  let era := zz / 146097
  let doe := zz % 146097
  let yoe := (doe - doe / 1460 + doe / 36524 - doe / 146096) / 365
  let y := yoe + era * 400
  let doy := doe - (365 * yoe + yoe / 4 - yoe / 100)
  let mp := (5 * doy + 2) / 153
  let d := doy - (153 * mp + 2) / 5 + 1
  let m := if mp < 10 then mp + 3 else mp - 9
  (if m ≤ 2 then y + 1 else y, m, d)

/-- Zero-padding to two digits, as strftime does for months, days,
hours, minutes and seconds. -/
def pad2 (n : Nat) : String := if n < 10 then "0" ++ toString n else toString n

/-- Zero-padding to four digits for the year field. -/
def pad4 (n : Nat) : String :=
  if n < 10 then "000" ++ toString n
  else if n < 100 then "00" ++ toString n
  else if n < 1000 then "0" ++ toString n
  else toString n

/-- strftime with the format of line 275 applied to a UTC time given in
whole seconds since the epoch: YYYY-MM-DDTHH:MM:SSZ. -/
def fmtTimestamp (sec : Nat) : String :=
  let ymd := civilFromDays (sec / 86400)
  let sod := sec % 86400
  pad4 ymd.1 ++ "-" ++ pad2 ymd.2.1 ++ "-" ++ pad2 ymd.2.2 ++ "T" ++
    pad2 (sod / 3600) ++ ":" ++ pad2 (sod % 3600 / 60) ++ ":" ++ pad2 (sod % 60) ++ "Z"

/-- Lines 264-275: the time filter.  datetime.utcnow() carries a
microsecond field, so the current instant is nowSec whole seconds plus
nowMicro microseconds; subtracting a whole number of hours preserves
the microseconds and strftime then truncates them away, which the
division by 1000000 performs. -/
def timeFilter (time_range : TimeRange) (nowSec nowMicro : Nat) : Option String :=
  match time_range.hours with
  | none => none
  | some hours =>
    some ("phenomenonTime ge " ++
      fmtTimestamp ((nowSec * 1000000 + nowMicro - hours * 3600 * 1000000) / 1000000))

/-- A query-parameter value: the params dict of lines 59-64 holds the
integer limit and strings. -/
inductive ParamVal where
  | nat (n : Nat)
  | str (s : String)
deriving DecidableEq

/-- Lines 59-64: the query parameters sent for an Observations request,
in construction order; the filter parameter appears exactly when a time
filter is present. -/
def observationsParams (limit : Nat) (time_filter : Option String) :
    List (String × ParamVal) :=
  [("$top", .nat limit), ("$orderby", .str "phenomenonTime desc")] ++
    (match time_filter with
     | some f => [("$filter", .str f)]
     | none => [])

/-- Line 358: the multiselect widget's max_selections argument. -/
def maxSelections : Nat := 4

/-- Lines 363-381: the comparison loop.  Each selected datastream's
fetched envelope is read; an empty value list is skipped silently,
a non-empty one is normalized and entered under the datastream's name,
in selection order. -/
def comparisonData (parse : String → Option Nat) :
    List (String × Envelope) → Except String (List (String × List ObsRow))
  | [] => .ok []
  | (name, env) :: rest =>
    match env.value with
    | [] => comparisonData parse rest
    | _ =>
      match normalizeObservations parse env with
      | .error e => .error e
      | .ok df =>
        match comparisonData parse rest with
        | .error e => .error e
        | .ok tail => .ok ((name, df) :: tail)

/-- Outcome of the comparison branch (lines 362-392): the comparison
chart over the collected data, the no-data warning of line 387, or the
informational prompts shown when fewer than two streams are selected. -/
inductive ComparisonView where
  | chart (data : List (String × List ObsRow))
  | noDataWarning
  | selectMoreInfo
deriving DecidableEq

/-- Lines 362-392: with at least two selections the collected
comparison data is charted when non-empty and otherwise produces the
no-data warning; with fewer selections an informational message
appears. -/
def comparisonView (parse : String → Option Nat) (selected : List (String × Envelope)) :
    Except String ComparisonView :=
  if 1 < selected.length then
    match comparisonData parse selected with
    | .error e => .error e
    | .ok d => .ok (if d.isEmpty then .noDataWarning else .chart d)
  else .ok .selectMoreInfo

/-- A concrete stand-in timestamp parser used to instantiate the
parser parameter on concrete inputs: it accepts non-empty strings of
decimal digits and rejects everything else, by structural recursion so
that concrete instances evaluate. -/
def parseDigitsAux : List Char → Nat → Option Nat
  | [], acc => some acc
  | c :: rest, acc =>
    if 48 ≤ c.toNat ∧ c.toNat ≤ 57 then parseDigitsAux rest (acc * 10 + (c.toNat - 48))
    else none

/-- The stand-in parser on whole strings. -/
def parseTimeNat (s : String) : Option Nat :=
  match s.data with
  | [] => none
  | l => parseDigitsAux l 0

/-- Does the record's phenomenonTime, when present, parse under the
given parser?  Records satisfying this never abort pd.to_datetime. -/
def timeParses (parse : String → Option Nat) (r : RawObs) : Bool :=
  match r.phenomenonTime with
  | none => true
  | some s => (parse s).isSome

lemma addTimeColumn_ok_of_parses (parse : String → Option Nat) :
    ∀ rows : List RawObs, (∀ r ∈ rows, timeParses parse r = true) →
      ∃ out, addTimeColumn parse rows = .ok out ∧ out.length = rows.length := by
  intro rows
  induction rows with
  | nil => intro _; exact ⟨[], rfl, rfl⟩
  | cons r rest ih =>
    intro h
    have hr := h r (List.mem_cons_self r rest)
    obtain ⟨out, hout, hlen⟩ := ih (fun x hx => h x (List.mem_cons_of_mem r hx))
    cases hpt : r.phenomenonTime with
    | none =>
      exact ⟨⟨none, r.result⟩ :: out, by simp [addTimeColumn, toDatetime, hpt, hout],
        by simp [hlen]⟩
    | some s =>
      have hps : (parse s).isSome = true := by simpa [timeParses, hpt] using hr
      obtain ⟨t, ht⟩ := Option.isSome_iff_exists.mp hps
      exact ⟨⟨some t, r.result⟩ :: out, by simp [addTimeColumn, toDatetime, hpt, ht, hout],
        by simp [hlen]⟩

lemma addTimeColumn_error_of_bad (parse : String → Option Nat) :
    ∀ rows : List RawObs, (∃ r ∈ rows, timeParses parse r = false) →
      ∃ e, addTimeColumn parse rows = .error e := by
  intro rows
  induction rows with
  | nil => rintro ⟨r, hr, _⟩; exact absurd hr (List.not_mem_nil r)
  | cons r rest ih =>
    rintro ⟨x, hx, hbad⟩
    rcases List.mem_cons.mp hx with rfl | hxs
    · cases hpt : x.phenomenonTime with
      | none => simp [timeParses, hpt] at hbad
      | some s =>
        have hps : parse s = none := by
          simp [timeParses, hpt] at hbad
          exact Option.not_isSome_iff_eq_none.mp (by simp [hbad])
        exact ⟨s, by simp [addTimeColumn, toDatetime, hpt, hps]⟩
    · cases hd : toDatetime parse r with
      | error e => exact ⟨e, by simp [addTimeColumn, hd]⟩
      | ok row =>
        obtain ⟨e, he⟩ := ih ⟨x, hxs, hbad⟩
        exact ⟨e, by simp [addTimeColumn, hd, he]⟩

/-- C1 (code bug): on the normalized series with records t=1 r=5,
t=2 r=9, t=3 r=2 (the API envelope arrives in descending time order),
the statistics block reports count 3, min 2 and max 9 as the claim
says, but its Latest Value metric is 5 — the value of the earliest
record — because line 330 reads iloc 0 of the frame that line 318 has
just sorted ascending; the claimed latest value 2 is not what is
shown. -/
theorem c1_latest_metric_shows_earliest_value :
    singleDatastreamView parseTimeNat
        ⟨[⟨some "3", some 2⟩, ⟨some "2", some 9⟩, ⟨some "1", some 5⟩]⟩ =
      Except.ok (.stats ⟨3, some 5, some 2, some 9⟩) ∧
    (⟨3, some 5, some 2, some 9⟩ : SummaryStats).latest ≠ some 2 :=
  ⟨rfl, by decide⟩

/-- C2 (counterexample to the claim as stated): an envelope with one
valid record and one record missing its result yields a series of
length two — the invalid record is not dropped — and an envelope whose
record has a malformed phenomenonTime makes normalization fail with an
error instead of dropping the record. -/
theorem c2_claim_counterexample :
    normalizeObservations parseTimeNat ⟨[⟨some "1", some 5⟩, ⟨some "2", none⟩]⟩ =
      Except.ok [⟨some 1, some 5⟩, ⟨some 2, none⟩] ∧
    normalizeObservations parseTimeNat ⟨[⟨some "bad-time", some 7⟩]⟩ =
      Except.error "bad-time" :=
  ⟨rfl, rfl⟩

/-- C2 (amended): the normalizer drops nothing.  When at least one
record carries a phenomenonTime and every present phenomenonTime
parses, it returns all records — valid and invalid alike — sorted
ascending by timestamp with missing timestamps last; when some present
phenomenonTime fails to parse, normalization raises an error rather
than dropping that record. -/
theorem c2_normalizer_amended :
    (∀ (parse : String → Option Nat) (env : Envelope),
        env.value.any (fun r => r.phenomenonTime.isSome) = true →
        (∀ r ∈ env.value, timeParses parse r = true) →
        ∃ df, normalizeObservations parse env = Except.ok df ∧
          df.length = env.value.length ∧ List.Sorted rowLE df) ∧
    (∀ (parse : String → Option Nat) (env : Envelope),
        (∃ r ∈ env.value, timeParses parse r = false) →
        ∃ e, normalizeObservations parse env = Except.error e) := by
  constructor
  · intro parse env hany hall
    obtain ⟨out, hout, hlen⟩ := addTimeColumn_ok_of_parses parse env.value hall
    refine ⟨sortByTime out, by simp [normalizeObservations, hany, hout], ?_, ?_⟩
    · simpa [sortByTime] using hlen
    · exact List.sorted_insertionSort rowLE out
  · rintro parse env ⟨r, hr, hbad⟩
    have hsome : r.phenomenonTime.isSome = true := by
      cases hpt : r.phenomenonTime with
      | none => simp [timeParses, hpt] at hbad
      | some s => simp [hpt]
    have hany : env.value.any (fun x => x.phenomenonTime.isSome) = true :=
      List.any_eq_true.mpr ⟨r, hr, hsome⟩
    obtain ⟨e, he⟩ := addTimeColumn_error_of_bad parse env.value ⟨r, hr, hbad⟩
    exact ⟨e, by simp [normalizeObservations, hany, he]⟩

/-- Witness for the amended C2 on concrete envelopes. -/
theorem c2_normalizer_amended_witness :
    (∃ df, normalizeObservations parseTimeNat ⟨[⟨some "2", none⟩, ⟨some "1", some 5⟩]⟩ =
        Except.ok df ∧ df.length = 2 ∧ List.Sorted rowLE df) ∧
    (∃ e, normalizeObservations parseTimeNat ⟨[⟨some "bad-time", some 7⟩]⟩ =
        Except.error e) :=
  ⟨c2_normalizer_amended.1 parseTimeNat ⟨[⟨some "2", none⟩, ⟨some "1", some 5⟩]⟩
      (by rfl) (by decide),
   c2_normalizer_amended.2 parseTimeNat ⟨[⟨some "bad-time", some 7⟩]⟩
      ⟨⟨some "bad-time", some 7⟩, by simp, by rfl⟩⟩

/-- C3: the source declares a 300-second cache for the sensors list and
sensor details and a 60-second cache for observations; under the cache
discipline, starting with no entry for a key, the first call invokes
the fetch function, a second call within the TTL does not (it returns
the cached value), and a second call at or past the TTL invokes it
again. -/
theorem c3_cache_ttl_policy :
    SENSORS_CACHE_TTL = 300 ∧ SENSOR_DETAILS_CACHE_TTL = 300 ∧
    OBSERVATIONS_CACHE_TTL = 60 ∧
    ∀ (α : Type) (key : String) (ttl t1 t2 : Nat) (f : Unit → α) (c : Cache α),
      c.lookup key = none →
      (getOrFetch t1 key ttl f c).invokedFetch = true ∧
      (t2 - t1 < ttl →
        (getOrFetch t2 key ttl f (getOrFetch t1 key ttl f c).cache).invokedFetch = false ∧
        (getOrFetch t2 key ttl f (getOrFetch t1 key ttl f c).cache).value =
          (getOrFetch t1 key ttl f c).value) ∧
      (ttl ≤ t2 - t1 →
        (getOrFetch t2 key ttl f (getOrFetch t1 key ttl f c).cache).invokedFetch = true) := by
  refine ⟨rfl, rfl, rfl, ?_⟩
  intro α key ttl t1 t2 f c hc
  have h1 : getOrFetch t1 key ttl f c = ⟨f (), (key, ⟨f (), t1⟩) :: c, true⟩ := by
    simp [getOrFetch, hc]
  have hlk : List.lookup key ((key, (⟨f (), t1⟩ : CacheEntry α)) :: c) = some ⟨f (), t1⟩ := by
    simp [List.lookup]
  refine ⟨by rw [h1], ?_, ?_⟩
  · intro hlive
    rw [h1]
    simp only [getOrFetch, hlk]
    rw [if_pos hlive]
    exact ⟨rfl, rfl⟩
  · intro hexp
    rw [h1]
    simp only [getOrFetch, hlk]
    rw [if_neg (by omega)]

/-- Witness for C3: a fresh fetch at time 0 with the observations TTL
invokes the fetch function; a second call at time 10 does not. -/
theorem c3_cache_ttl_policy_witness :
    (getOrFetch 0 "obs" 60 (fun _ => (41 : Nat)) []).invokedFetch = true ∧
    (getOrFetch 10 "obs" 60 (fun _ => (41 : Nat))
        (getOrFetch 0 "obs" 60 (fun _ => (41 : Nat)) []).cache).invokedFetch = false := by
  have h := c3_cache_ttl_policy.2.2.2 Nat "obs" 60 0 10 (fun _ => 41) [] rfl
  exact ⟨h.1, (h.2.1 (by norm_num)).1⟩

/-- C4: any fetch failure in get_observations yields the empty
envelope, and the single-datastream view on that envelope produces the
no-data warning rather than any statistics — the whole path is a total
function, so no failure crashes it. -/
theorem c4_fetch_failure_end_to_end :
    ∀ (e : RequestError) (parse : String → Option Nat),
      get_observations_result (Except.error e) = ⟨[]⟩ ∧
      singleDatastreamView parse (get_observations_result (Except.error e)) =
        Except.ok SingleView.noDataWarning :=
  fun _ _ => ⟨rfl, rfl⟩

/-- C5: every fetch failure — timeout, connection refused, DNS failure
or a non-success HTTP status — is caught inside the three wrappers and
mapped to the empty envelope for the list-shaped sensors and
observations resources and to the empty object for the single-entity
sensor detail; each wrapper makes exactly one HTTP attempt. -/
theorem c5_fetch_failures_to_sentinels :
    ∀ e : RequestError,
      get_sensors_result (Except.error e) = ⟨[]⟩ ∧
      get_observations_result (Except.error e) = ⟨[]⟩ ∧
      get_sensor_details_result (Except.error e) = none ∧
      (∀ responder, (get_sensors_fetch responder).2 = 1) ∧
      (∀ responder, (get_sensor_details_fetch responder).2 = 1) ∧
      (∀ responder, (get_observations_fetch responder).2 = 1) :=
  fun _ => ⟨rfl, rfl, rfl, fun _ => rfl, fun _ => rfl, fun _ => rfl⟩

lemma timeFilter_of_hours (tr : TimeRange) (h : Nat) (hh : tr.hours = some h)
    (nowSec nowMicro : Nat) (hm : nowMicro < 1000000) (hle : h * 3600 ≤ nowSec) :
    timeFilter tr nowSec nowMicro =
      some ("phenomenonTime ge " ++ fmtTimestamp (nowSec - h * 3600)) := by
  have harith : nowSec * 1000000 + nowMicro - h * 3600 * 1000000 =
      1000000 * (nowSec - h * 3600) + nowMicro := by
    have : h * 3600 * 1000000 = h * 3600000000 := by ring
    omega
  unfold timeFilter
  rw [hh]
  show some ("phenomenonTime ge " ++
      fmtTimestamp ((nowSec * 1000000 + nowMicro - h * 3600 * 1000000) / 1000000)) = _
  rw [harith, Nat.mul_add_div (by norm_num), Nat.div_eq_of_lt hm, Nat.add_zero]

/-- C6: for every clock value (whole seconds plus a sub-second
microsecond field), the 24-hour, 7-day, 30-day and 90-day selections
produce the filter string "phenomenonTime ge T" where T is the clock
minus 24, 168, 720 and 2160 hours respectively, truncated to whole
seconds and formatted by fmtTimestamp; the All available selection
produces no filter. -/
theorem c6_time_filter_windows :
    ∀ nowSec nowMicro : Nat, nowMicro < 1000000 → 2160 * 3600 ≤ nowSec →
      timeFilter TimeRange.allAvailable nowSec nowMicro = none ∧
      timeFilter TimeRange.last24h nowSec nowMicro =
        some ("phenomenonTime ge " ++ fmtTimestamp (nowSec - 24 * 3600)) ∧
      timeFilter TimeRange.last7d nowSec nowMicro =
        some ("phenomenonTime ge " ++ fmtTimestamp (nowSec - 168 * 3600)) ∧
      timeFilter TimeRange.last30d nowSec nowMicro =
        some ("phenomenonTime ge " ++ fmtTimestamp (nowSec - 720 * 3600)) ∧
      timeFilter TimeRange.last90d nowSec nowMicro =
        some ("phenomenonTime ge " ++ fmtTimestamp (nowSec - 2160 * 3600)) := by
  intro nowSec nowMicro hm hle
  refine ⟨rfl, ?_, ?_, ?_, ?_⟩
  · exact timeFilter_of_hours TimeRange.last24h 24 (by rfl) _ _ hm (by omega)
  · exact timeFilter_of_hours TimeRange.last7d 168 (by rfl) _ _ hm (by omega)
  · exact timeFilter_of_hours TimeRange.last30d 720 (by rfl) _ _ hm (by omega)
  · exact timeFilter_of_hours TimeRange.last90d 2160 (by rfl) _ _ hm (by omega)

/-- Witness for C6 at the clock 2024-01-08T00:00:00.123456Z. -/
theorem c6_time_filter_windows_witness :
    timeFilter TimeRange.allAvailable 1704672000 123456 = none ∧
    timeFilter TimeRange.last24h 1704672000 123456 =
      some "phenomenonTime ge 2024-01-07T00:00:00Z" ∧
    timeFilter TimeRange.last7d 1704672000 123456 =
      some "phenomenonTime ge 2024-01-01T00:00:00Z" ∧
    timeFilter TimeRange.last30d 1704672000 123456 =
      some "phenomenonTime ge 2023-12-09T00:00:00Z" ∧
    timeFilter TimeRange.last90d 1704672000 123456 =
      some "phenomenonTime ge 2023-10-10T00:00:00Z" := by
  have h := c6_time_filter_windows 1704672000 123456 (by norm_num) (by norm_num)
  exact ⟨h.1, h.2.1.trans (by rfl), h.2.2.1.trans (by rfl),
    h.2.2.2.1.trans (by rfl), h.2.2.2.2.trans (by rfl)⟩

/-- C7: an Observations request carries exactly the page-size parameter
from the limit and the descending order-by, plus the filter parameter
exactly when a time filter is present; with limit 200 and the 7-day
window at 2024-01-08T00:00:00Z the parameters are as the claim lists
them. -/
theorem c7_observations_query_params :
    (∀ limit : Nat, observationsParams limit none =
        [("$top", ParamVal.nat limit), ("$orderby", ParamVal.str "phenomenonTime desc")]) ∧
    (∀ (limit : Nat) (f : String), observationsParams limit (some f) =
        [("$top", ParamVal.nat limit), ("$orderby", ParamVal.str "phenomenonTime desc"),
         ("$filter", ParamVal.str f)]) ∧
    observationsParams 200 (timeFilter TimeRange.last7d 1704672000 0) =
      [("$top", ParamVal.nat 200), ("$orderby", ParamVal.str "phenomenonTime desc"),
       ("$filter", ParamVal.str "phenomenonTime ge 2024-01-01T00:00:00Z")] :=
  ⟨fun _ => rfl, fun _ _ => rfl, rfl⟩

/-- C8: the refresh action clears every cache entry unconditionally,
and any memoized call performed on the cleared cache invokes the fetch
function, whatever the key, TTL, time or prior cache contents. -/
theorem c8_invalidate_all_forces_fetch :
    ∀ (α : Type) (c : Cache α) (now : Nat) (key : String) (ttl : Nat) (f : Unit → α),
      invalidateAll c = ([] : Cache α) ∧
      (getOrFetch now key ttl f (invalidateAll c)).invokedFetch = true :=
  fun _ _ _ _ _ _ => ⟨rfl, rfl⟩

/-- C9: the formatted datastream info carries the unit symbol of the
unitOfMeasurement sub-object and the name of the observedProperty
sub-object, substituting the empty string when the sub-object or its
field is absent; the result is always a plain string, never null. -/
theorem c9_datastream_metadata_defaults :
    ∀ ds : DatastreamJson,
      (format_datastream_info ds).unit =
        (ds.unitOfMeasurement.bind UnitOfMeasurement.symbol).getD "" ∧
      (format_datastream_info ds).property =
        (ds.observedProperty.bind ObservedProperty.name).getD "" := by
  intro ds
  obtain ⟨i, n, d, u, p⟩ := ds
  constructor
  · cases u <;> rfl
  · cases p <;> rfl

lemma comparisonData_names (parse : String → Option Nat) :
    ∀ (selected : List (String × Envelope)) (d : List (String × List ObsRow)),
      comparisonData parse selected = Except.ok d →
      d.map Prod.fst = (selected.filter (fun p => !p.2.value.isEmpty)).map Prod.fst := by
  intro selected
  induction selected with
  | nil =>
    intro d hd
    simp [comparisonData] at hd
    simp [hd.symm]
  | cons hd tl ih =>
    intro d h
    obtain ⟨name, env⟩ := hd
    cases henv : env.value with
    | nil =>
      simp only [comparisonData, henv] at h
      simpa [List.filter, henv] using ih d h
    | cons r rs =>
      simp only [comparisonData, henv] at h
      cases hn : normalizeObservations parse env with
      | error e => rw [hn] at h; simp at h
      | ok df =>
        rw [hn] at h
        cases ht : comparisonData parse tl with
        | error e => rw [ht] at h; simp at h
        | ok tail =>
          rw [ht] at h
          simp only [Except.ok.injEq] at h
          subst h
          simp [List.filter, henv, ih tail ht]

/-- C10: the comparison widget admits at most four selections (the
max_selections constant); a selected datastream whose fetch failed and
was replaced by the empty envelope is skipped without a trace; more
generally the collected comparison entries are exactly the selected
datastreams with a non-empty value list, in order; and with at least
two selections (and normalization succeeding) the no-data warning
appears precisely when every selected datastream is empty, a non-empty
collection being charted instead. -/
theorem c10_comparison_view :
    maxSelections = 4 ∧
    (∀ (parse : String → Option Nat) (name : String) (e : RequestError)
        (rest : List (String × Envelope)),
        comparisonData parse ((name, get_observations_result (Except.error e)) :: rest) =
          comparisonData parse rest) ∧
    (∀ (parse : String → Option Nat) (selected : List (String × Envelope))
        (d : List (String × List ObsRow)),
        comparisonData parse selected = Except.ok d →
        d.map Prod.fst = (selected.filter (fun p => !p.2.value.isEmpty)).map Prod.fst) ∧
    (∀ (parse : String → Option Nat) (selected : List (String × Envelope))
        (d : List (String × List ObsRow)),
        2 ≤ selected.length → comparisonData parse selected = Except.ok d →
        (comparisonView parse selected = Except.ok ComparisonView.noDataWarning ↔
          ∀ p ∈ selected, p.2.value = [])) ∧
    (∀ (parse : String → Option Nat) (selected : List (String × Envelope))
        (d : List (String × List ObsRow)),
        2 ≤ selected.length → comparisonData parse selected = Except.ok d →
        d ≠ [] → comparisonView parse selected = Except.ok (ComparisonView.chart d)) := by
  have hview : ∀ (parse : String → Option Nat) (selected : List (String × Envelope))
      (d : List (String × List ObsRow)),
      2 ≤ selected.length → comparisonData parse selected = Except.ok d →
      comparisonView parse selected =
        Except.ok (if d.isEmpty then ComparisonView.noDataWarning else ComparisonView.chart d) := by
    intro parse selected d hlen hd
    rw [comparisonView, if_pos (by omega), hd]
  refine ⟨rfl, ?_, comparisonData_names, ?_, ?_⟩
  · intro parse name e rest
    rfl
  · intro parse selected d hlen hd
    rw [hview parse selected d hlen hd]
    have hnames := comparisonData_names parse selected d hd
    constructor
    · intro hw
      cases d with
      | nil =>
        have hfil : selected.filter (fun p => !p.2.value.isEmpty) = [] := by
          have := hnames.symm
          simpa [List.map_eq_nil_iff] using this
        intro p hp
        have := (List.filter_eq_nil_iff.mp hfil) p hp
        simpa [List.isEmpty_iff] using this
      | cons x xs => simp at hw
    · intro hall
      have hfil : selected.filter (fun p => !p.2.value.isEmpty) = [] :=
        List.filter_eq_nil_iff.mpr (fun p hp => by simp [List.isEmpty_iff, hall p hp])
      have : d = [] := by
        have := hnames
        rw [hfil] at this
        simpa [List.map_eq_nil_iff] using this
      simp [this]
  · intro parse selected d hlen hd hne
    rw [hview parse selected d hlen hd]
    simp [List.isEmpty_iff, hne]

/-- The concrete selection used by the C10 witness: the first stream's
fetch produced the empty envelope, the second has one observation. -/
def c10SelectedExample : List (String × Envelope) :=
  [("a", ⟨[]⟩), ("b", ⟨[⟨some "1", some 2⟩]⟩)]

/-- Witness for C10 on the concrete selection: the empty stream is
omitted, only the non-empty one is charted, and no no-data warning
appears. -/
theorem c10_comparison_view_witness :
    comparisonData parseTimeNat c10SelectedExample =
      Except.ok [("b", [⟨some 1, some 2⟩])] ∧
    ([("b", [(⟨some 1, some 2⟩ : ObsRow)])].map Prod.fst =
      (c10SelectedExample.filter (fun p => !p.2.value.isEmpty)).map Prod.fst) ∧
    comparisonView parseTimeNat c10SelectedExample =
      Except.ok (ComparisonView.chart [("b", [⟨some 1, some 2⟩])]) := by
  refine ⟨rfl, ?_, ?_⟩
  · exact c10_comparison_view.2.2.1 parseTimeNat c10SelectedExample
      [("b", [⟨some 1, some 2⟩])] rfl
  · exact c10_comparison_view.2.2.2.2 parseTimeNat c10SelectedExample
      [("b", [⟨some 1, some 2⟩])] (by decide) rfl (by simp)

end BGS
